import Mathlib

/-!
Verification of the job-application tracker data-access layer
(`models.py` + `data_provider.py`).

The database is modelled as pure state: each table is a list of rows and
each table carries its auto-increment counter (MySQL `lastrowid`).  The
repository methods become pure functions from a `DB` to a result paired
with the successor `DB`.  Transaction mechanics (`_execute`,
`_execute_write`, `_execute_update_delete`) are modelled explicitly:
statements run on an uncommitted working copy, `commit` publishes it,
`rollback` discards it.  MySQL's default row count for UPDATE counts rows
actually *changed* (not merely matched), which is exactly what the source
relies upon to distinguish "not found" from "no-op update".
-/

deriving instance DecidableEq for Except

namespace JobTracker

/-- `datetime.date` values: only construction and equality matter here. -/
abbrev Date := Nat

/-- `decimal.Decimal` values: only construction and equality matter here. -/
abbrev Decimal := Int

/-! ## models.py -/

/-- `StatusType(StrEnum)` from models.py. -/
inductive StatusType
  | SAVED
  | APPLIED
  | SCREEN
  | INTERVIEW
  | ASSESSMENT
  | OFFER
  | ACCEPTED
  | REJECTED
  | WITHDRAWN
  | GHOSTED
deriving DecidableEq

/-- The string value of a `StatusType` member (`status.status.value`). -/
def StatusType.value : StatusType → String
  | .SAVED => "SAVED"
  | .APPLIED => "APPLIED"
  | .SCREEN => "SCREEN"
  | .INTERVIEW => "INTERVIEW"
  | .ASSESSMENT => "ASSESSMENT"
  | .OFFER => "OFFER"
  | .ACCEPTED => "ACCEPTED"
  | .REJECTED => "REJECTED"
  | .WITHDRAWN => "WITHDRAWN"
  | .GHOSTED => "GHOSTED"

/-- `StatusType(s)`: look a member up by its string value; `none` models the
`ValueError` the enum constructor raises on an unknown string. -/
def StatusType.fromString (s : String) : Option StatusType :=
  if s = "SAVED" then some .SAVED
  else if s = "APPLIED" then some .APPLIED
  else if s = "SCREEN" then some .SCREEN
  else if s = "INTERVIEW" then some .INTERVIEW
  else if s = "ASSESSMENT" then some .ASSESSMENT
  else if s = "OFFER" then some .OFFER
  else if s = "ACCEPTED" then some .ACCEPTED
  else if s = "REJECTED" then some .REJECTED
  else if s = "WITHDRAWN" then some .WITHDRAWN
  else if s = "GHOSTED" then some .GHOSTED
  else none

/-- `Company` dataclass from models.py. -/
structure Company where
  company_id : Option Nat
  name : String
  website : Option String := none
  company_location : Option String := none
deriving DecidableEq

/-- `Contact` dataclass from models.py. -/
structure Contact where
  contact_id : Option Nat
  company_id : Nat
  full_name : String
  title : Option String := none
  email : Option String := none
  phone : Option String := none
  linkedin : Option String := none
deriving DecidableEq

/-- `JobPosting` dataclass from models.py. -/
structure JobPosting where
  job_id : Option Nat
  company_id : Nat
  job_title : String
  job_location : Option String := none
  employment_type : Option String := none
  job_url : Option String := none
  salary : Option Decimal := none
  posted_date : Option Date := none
deriving DecidableEq

/-- `Application` dataclass from models.py. -/
structure Application where
  application_id : Option Nat
  job_id : Nat
  applied_date : Option Date := none
  source : Option String := none
  priority : Option Int := none
  resume : Option String := none
deriving DecidableEq

/-- `ApplicationStatus` dataclass from models.py: object references, not ids. -/
structure ApplicationStatus where
  company : Company
  contact : Option Contact
  job : JobPosting
  application : Application
  status_id : Option Nat
  status : StatusType
deriving DecidableEq

/-! ## Persisted schema: one row type per table -/

/-- A row of the `company` table. -/
structure CompanyRow where
  company_id : Nat
  name : String
  website : Option String
  company_location : Option String
deriving DecidableEq

/-- A row of the `contact` table. -/
structure ContactRow where
  contact_id : Nat
  company_id : Nat
  full_name : String
  title : Option String
  email : Option String
  phone : Option String
  linkedin : Option String
deriving DecidableEq

/-- A row of the `job_posting` table. -/
structure JobPostingRow where
  job_id : Nat
  company_id : Nat
  job_title : String
  job_location : Option String
  employment_type : Option String
  job_url : Option String
  salary : Option Decimal
  posted_date : Option Date
deriving DecidableEq

/-- A row of the `application` table. -/
structure ApplicationRow where
  application_id : Nat
  job_id : Nat
  applied_date : Option Date
  source : Option String
  priority : Option Int
  resume : Option String
deriving DecidableEq

/-- A row of the `application_status` table (`status` stored as the enum's
string representation, `contact_id` nullable). -/
structure StatusRow where
  status_id : Nat
  application_id : Nat
  contact_id : Option Nat
  status : String
deriving DecidableEq

/-- The database: five tables plus their auto-increment counters. -/
structure DB where
  companies : List CompanyRow
  contacts : List ContactRow
  job_postings : List JobPostingRow
  applications : List ApplicationRow
  application_statuses : List StatusRow
  next_company_id : Nat
  next_contact_id : Nat
  next_job_id : Nat
  next_application_id : Nat
  next_status_id : Nat
deriving DecidableEq

namespace DataProvider

/-! ## Internal helpers (`data_provider.py` lines 109-180) -/

/-- `self._conn.autocommit = False`, set once in `__init__` (line 94). -/
def autocommitSetting : Bool := false

/-- Connection-side transaction status: whether an implicit transaction is
currently open on the single connection. -/
structure ConnTxn where
  txnOpen : Bool
deriving DecidableEq

/-- `_execute` (lines 109-136), the SELECT helper.  Executing the query opens
an implicit transaction; the `finally` block closes the cursor and, when
autocommit is off, attempts `rollback()`, swallowing any rollback failure.
Inputs model the environment: `queryResult` is what `cur.execute` + fetch
yield (an error models the raised exception), `rollback_ok` is whether the
`rollback()` call itself succeeds.  Output: the value returned / exception
propagated, the final transaction status, and whether rollback was
attempted. -/
def _execute {α : Type} (queryResult : Except String α) (rollback_ok : Bool) :
    Except String α × ConnTxn × Bool :=
  let afterQuery : ConnTxn := { txnOpen := true }
  if autocommitSetting then
    (queryResult, afterQuery, false)
  else if rollback_ok then
    (queryResult, { txnOpen := false }, true)
  else
    -- rollback raised: the `except Exception: pass` swallows it and the
    -- original queryResult (value or error) still propagates
    (queryResult, afterQuery, true)

/-- `_execute_write` (lines 138-148).  The statement runs on the connection's
uncommitted working state (it may have changed rows before failing);
`commit()` publishes the working state and the method returns
`int(cur.lastrowid or 0)`; on exception `rollback()` discards every change
and the exception is re-raised. -/
def _execute_write (committed : DB) (stmt : DB → DB × Except String Nat) :
    Except String Nat × DB :=
  match stmt committed with
  | (working, .ok lastrowid) => (.ok lastrowid, working)
  | (_, .error e) => (.error e, committed)

/-- `_execute_update_delete` (lines 150-166): identical transaction skeleton,
but the returned number is `int(cur.rowcount or 0)` so callers can
distinguish 0 rows matched from 0 rows changed. -/
def _execute_update_delete (committed : DB) (stmt : DB → DB × Except String Nat) :
    Except String Nat × DB :=
  match stmt committed with
  | (working, .ok rowcount) => (.ok rowcount, working)
  | (_, .error e) => (.error e, committed)

/-- `_exists` (lines 176-180): `SELECT 1 FROM table WHERE pk_col = %s LIMIT 1`
on a table represented by its primary-key column. -/
def _exists (pk_column : List Nat) (pk_value : Nat) : Bool :=
  pk_column.any (fun k => k == pk_value)

end DataProvider

/-! ## Statement semantics

One pure function per parameterized SQL statement, of the shape
`DB → DB × Except String Nat` expected by the transaction helpers.  INSERT
assigns the table's auto-increment counter and yields it as `lastrowid`;
UPDATE yields MySQL's default `rowcount` for UPDATE, the number of rows
matched *and actually changed*; DELETE yields the number of rows removed.
Parameter-free SQL cannot fail in this pure semantics, so every statement
returns `.ok`. -/

/-- `INSERT INTO company (name, website, company_location) VALUES (...)`. -/
def DB.insertCompany (name : String) (website company_location : Option String)
    (db : DB) : DB × Except String Nat :=
  let new_id := db.next_company_id
  ({ db with
      companies := db.companies ++ [⟨new_id, name, website, company_location⟩],
      next_company_id := new_id + 1 },
   .ok new_id)

/-- The SET clause of `UpdateCompany`'s UPDATE applied to one row. -/
def CompanyRow.setVals (name : String) (website company_location : Option String)
    (r : CompanyRow) : CompanyRow :=
  { r with name := name, website := website, company_location := company_location }

/-- `UPDATE company SET ... WHERE company_id = %s`. -/
def DB.updateCompanyStmt (name : String) (website company_location : Option String)
    (cid : Nat) (db : DB) : DB × Except String Nat :=
  let rowcount := db.companies.countP fun r =>
    r.company_id == cid && r.setVals name website company_location != r
  ({ db with
      companies := db.companies.map fun r =>
        if r.company_id == cid then r.setVals name website company_location else r },
   .ok rowcount)

/-- `DELETE FROM company WHERE company_id = %s`. -/
def DB.deleteCompanyStmt (cid : Nat) (db : DB) : DB × Except String Nat :=
  let rowcount := db.companies.countP fun r => r.company_id == cid
  ({ db with companies := db.companies.filter fun r => r.company_id != cid },
   .ok rowcount)

/-- `INSERT INTO contact (company_id, full_name, title, email, phone, linkedin)`. -/
def DB.insertContact (company_id : Nat) (full_name : String)
    (title email phone linkedin : Option String) (db : DB) : DB × Except String Nat :=
  let new_id := db.next_contact_id
  ({ db with
      contacts := db.contacts ++ [⟨new_id, company_id, full_name, title, email, phone, linkedin⟩],
      next_contact_id := new_id + 1 },
   .ok new_id)

/-- The SET clause of `UpdateContact`'s UPDATE applied to one row. -/
def ContactRow.setVals (company_id : Nat) (full_name : String)
    (title email phone linkedin : Option String) (r : ContactRow) : ContactRow :=
  { r with
      company_id := company_id, full_name := full_name, title := title,
      email := email, phone := phone, linkedin := linkedin }

/-- `UPDATE contact SET ... WHERE contact_id = %s`. -/
def DB.updateContactStmt (company_id : Nat) (full_name : String)
    (title email phone linkedin : Option String) (cid : Nat) (db : DB) :
    DB × Except String Nat :=
  let rowcount := db.contacts.countP fun r =>
    r.contact_id == cid && r.setVals company_id full_name title email phone linkedin != r
  ({ db with
      contacts := db.contacts.map fun r =>
        if r.contact_id == cid then r.setVals company_id full_name title email phone linkedin else r },
   .ok rowcount)

/-- `DELETE FROM contact WHERE contact_id = %s`. -/
def DB.deleteContactStmt (cid : Nat) (db : DB) : DB × Except String Nat :=
  let rowcount := db.contacts.countP fun r => r.contact_id == cid
  ({ db with contacts := db.contacts.filter fun r => r.contact_id != cid },
   .ok rowcount)

namespace DataProvider

/-! ## Row -> Object mappers (lines 185-228) -/

/-- `_company_from_row`. -/
def _company_from_row (r : CompanyRow) : Company :=
  { company_id := some r.company_id, name := r.name, website := r.website,
    company_location := r.company_location }

/-- `_contact_from_row`. -/
def _contact_from_row (r : ContactRow) : Contact :=
  { contact_id := some r.contact_id, company_id := r.company_id,
    full_name := r.full_name, title := r.title, email := r.email,
    phone := r.phone, linkedin := r.linkedin }

/-- `_job_posting_from_row`. -/
def _job_posting_from_row (r : JobPostingRow) : JobPosting :=
  { job_id := some r.job_id, company_id := r.company_id, job_title := r.job_title,
    job_location := r.job_location, employment_type := r.employment_type,
    job_url := r.job_url, salary := r.salary, posted_date := r.posted_date }

/-- `_application_from_row`. -/
def _application_from_row (r : ApplicationRow) : Application :=
  { application_id := some r.application_id, job_id := r.job_id,
    applied_date := r.applied_date, source := r.source, priority := r.priority,
    resume := r.resume }

/-! ## 1) COMPANY CRUD (lines 284-325) -/

/-- `CreateCompany`: INSERT through `_execute_write`, then
`replace(company, company_id=new_id)`. -/
def CreateCompany (company : Company) (db : DB) : Except String Company × DB :=
  match _execute_write db (DB.insertCompany company.name company.website company.company_location) with
  | (.ok new_id, db2) => (.ok { company with company_id := some new_id }, db2)
  | (.error e, db2) => (.error e, db2)

/-- `ReadCompanyByID`: `SELECT ... WHERE company_id = %s`, fetchone, map. -/
def ReadCompanyByID (company_id : Nat) (db : DB) : Option Company :=
  (db.companies.find? fun r => r.company_id == company_id).map _company_from_row

/-- `ReadAllCompanies`: `SELECT ... ORDER BY company_id`, map each row. -/
def ReadAllCompanies (db : DB) : List Company :=
  ((db.companies.mergeSort fun a b => decide (a.company_id ≤ b.company_id)).map
    _company_from_row)

/-- `UpdateCompany` (lines 308-320): validation, UPDATE, then `rc > 0` or the
`_exists` disambiguation probe against the company table. -/
def UpdateCompany (company : Company) (db : DB) : Except String Bool × DB :=
  match company.company_id with
  | none => (.error "UpdateCompany requires company.company_id to be set.", db)
  | some cid =>
    match _execute_update_delete db
        (DB.updateCompanyStmt company.name company.website company.company_location cid) with
    | (.ok rc, db2) =>
      if rc > 0 then (.ok true, db2)
      else (.ok (_exists (db2.companies.map (·.company_id)) cid), db2)
    | (.error e, db2) => (.error e, db2)

/-- `DeleteCompany` (lines 322-325): DELETE, return `rc > 0`. -/
def DeleteCompany (company_id : Nat) (db : DB) : Except String Bool × DB :=
  match _execute_update_delete db (DB.deleteCompanyStmt company_id) with
  | (.ok rc, db2) => (.ok (decide (rc > 0)), db2)
  | (.error e, db2) => (.error e, db2)

/-! ## 2) CONTACT CRUD (lines 330-389) -/

/-- `CreateContact`. -/
def CreateContact (contact : Contact) (db : DB) : Except String Contact × DB :=
  match _execute_write db
      (DB.insertContact contact.company_id contact.full_name contact.title
        contact.email contact.phone contact.linkedin) with
  | (.ok new_id, db2) => (.ok { contact with contact_id := some new_id }, db2)
  | (.error e, db2) => (.error e, db2)

/-- `ReadContactByID`. -/
def ReadContactByID (contact_id : Nat) (db : DB) : Option Contact :=
  (db.contacts.find? fun r => r.contact_id == contact_id).map _contact_from_row

/-- `ReadAllContacts`: `ORDER BY contact_id`. -/
def ReadAllContacts (db : DB) : List Contact :=
  ((db.contacts.mergeSort fun a b => decide (a.contact_id ≤ b.contact_id)).map
    _contact_from_row)

/-- `UpdateContact` (lines 357-384). -/
def UpdateContact (contact : Contact) (db : DB) : Except String Bool × DB :=
  match contact.contact_id with
  | none => (.error "UpdateContact requires contact.contact_id to be set.", db)
  | some cid =>
    match _execute_update_delete db
        (DB.updateContactStmt contact.company_id contact.full_name contact.title
          contact.email contact.phone contact.linkedin cid) with
    | (.ok rc, db2) =>
      if rc > 0 then (.ok true, db2)
      else (.ok (_exists (db2.contacts.map (·.contact_id)) cid), db2)
    | (.error e, db2) => (.error e, db2)

/-- `DeleteContact`. -/
def DeleteContact (contact_id : Nat) (db : DB) : Except String Bool × DB :=
  match _execute_update_delete db (DB.deleteContactStmt contact_id) with
  | (.ok rc, db2) => (.ok (decide (rc > 0)), db2)
  | (.error e, db2) => (.error e, db2)

end DataProvider

/-- `INSERT INTO job_posting (company_id, job_title, ...)`. -/
def DB.insertJobPosting (company_id : Nat) (job_title : String)
    (job_location employment_type job_url : Option String) (salary : Option Decimal)
    (posted_date : Option Date) (db : DB) : DB × Except String Nat :=
  let new_id := db.next_job_id
  ({ db with
      job_postings := db.job_postings ++
        [⟨new_id, company_id, job_title, job_location, employment_type, job_url, salary, posted_date⟩],
      next_job_id := new_id + 1 },
   .ok new_id)

/-- The SET clause of `UpdateJobPosting`'s UPDATE applied to one row. -/
def JobPostingRow.setVals (company_id : Nat) (job_title : String)
    (job_location employment_type job_url : Option String) (salary : Option Decimal)
    (posted_date : Option Date) (r : JobPostingRow) : JobPostingRow :=
  { r with
      company_id := company_id, job_title := job_title, job_location := job_location,
      employment_type := employment_type, job_url := job_url, salary := salary,
      posted_date := posted_date }

/-- `UPDATE job_posting SET ... WHERE job_id = %s`. -/
def DB.updateJobPostingStmt (company_id : Nat) (job_title : String)
    (job_location employment_type job_url : Option String) (salary : Option Decimal)
    (posted_date : Option Date) (jid : Nat) (db : DB) : DB × Except String Nat :=
  let rowcount := db.job_postings.countP fun r =>
    r.job_id == jid &&
      r.setVals company_id job_title job_location employment_type job_url salary posted_date != r
  ({ db with
      job_postings := db.job_postings.map fun r =>
        if r.job_id == jid then
          r.setVals company_id job_title job_location employment_type job_url salary posted_date
        else r },
   .ok rowcount)

/-- `DELETE FROM job_posting WHERE job_id = %s`. -/
def DB.deleteJobPostingStmt (jid : Nat) (db : DB) : DB × Except String Nat :=
  let rowcount := db.job_postings.countP fun r => r.job_id == jid
  ({ db with job_postings := db.job_postings.filter fun r => r.job_id != jid },
   .ok rowcount)

/-- `INSERT INTO application (job_id, applied_date, source, priority, resume)`. -/
def DB.insertApplication (job_id : Nat) (applied_date : Option Date)
    (source : Option String) (priority : Option Int) (resume : Option String)
    (db : DB) : DB × Except String Nat :=
  let new_id := db.next_application_id
  ({ db with
      applications := db.applications ++
        [⟨new_id, job_id, applied_date, source, priority, resume⟩],
      next_application_id := new_id + 1 },
   .ok new_id)

/-- The SET clause of `UpdateApplication`'s UPDATE applied to one row. -/
def ApplicationRow.setVals (job_id : Nat) (applied_date : Option Date)
    (source : Option String) (priority : Option Int) (resume : Option String)
    (r : ApplicationRow) : ApplicationRow :=
  { r with
      job_id := job_id, applied_date := applied_date, source := source,
      priority := priority, resume := resume }

/-- `UPDATE application SET ... WHERE application_id = %s`. -/
def DB.updateApplicationStmt (job_id : Nat) (applied_date : Option Date)
    (source : Option String) (priority : Option Int) (resume : Option String)
    (aid : Nat) (db : DB) : DB × Except String Nat :=
  let rowcount := db.applications.countP fun r =>
    r.application_id == aid && r.setVals job_id applied_date source priority resume != r
  ({ db with
      applications := db.applications.map fun r =>
        if r.application_id == aid then r.setVals job_id applied_date source priority resume
        else r },
   .ok rowcount)

/-- `DELETE FROM application WHERE application_id = %s`. -/
def DB.deleteApplicationStmt (aid : Nat) (db : DB) : DB × Except String Nat :=
  let rowcount := db.applications.countP fun r => r.application_id == aid
  ({ db with applications := db.applications.filter fun r => r.application_id != aid },
   .ok rowcount)

namespace DataProvider

/-! ## 3) JOB_POSTING CRUD (lines 394-464) -/

/-- `CreateJobPosting`. -/
def CreateJobPosting (job : JobPosting) (db : DB) : Except String JobPosting × DB :=
  match _execute_write db
      (DB.insertJobPosting job.company_id job.job_title job.job_location
        job.employment_type job.job_url job.salary job.posted_date) with
  | (.ok new_id, db2) => (.ok { job with job_id := some new_id }, db2)
  | (.error e, db2) => (.error e, db2)

/-- `ReadJobPostingByID`. -/
def ReadJobPostingByID (job_id : Nat) (db : DB) : Option JobPosting :=
  (db.job_postings.find? fun r => r.job_id == job_id).map _job_posting_from_row

/-- `ReadAllJobPostings`: `ORDER BY job_id`. -/
def ReadAllJobPostings (db : DB) : List JobPosting :=
  ((db.job_postings.mergeSort fun a b => decide (a.job_id ≤ b.job_id)).map
    _job_posting_from_row)

/-- `UpdateJobPosting` (lines 430-459). -/
def UpdateJobPosting (job : JobPosting) (db : DB) : Except String Bool × DB :=
  match job.job_id with
  | none => (.error "UpdateJobPosting requires job.job_id to be set.", db)
  | some jid =>
    match _execute_update_delete db
        (DB.updateJobPostingStmt job.company_id job.job_title job.job_location
          job.employment_type job.job_url job.salary job.posted_date jid) with
    | (.ok rc, db2) =>
      if rc > 0 then (.ok true, db2)
      else (.ok (_exists (db2.job_postings.map (·.job_id)) jid), db2)
    | (.error e, db2) => (.error e, db2)

/-- `DeleteJobPosting`. -/
def DeleteJobPosting (job_id : Nat) (db : DB) : Except String Bool × DB :=
  match _execute_update_delete db (DB.deleteJobPostingStmt job_id) with
  | (.ok rc, db2) => (.ok (decide (rc > 0)), db2)
  | (.error e, db2) => (.error e, db2)

/-! ## 4) APPLICATION CRUD (lines 469-516) -/

/-- `CreateApplication`. -/
def CreateApplication (app : Application) (db : DB) : Except String Application × DB :=
  match _execute_write db
      (DB.insertApplication app.job_id app.applied_date app.source app.priority app.resume) with
  | (.ok new_id, db2) => (.ok { app with application_id := some new_id }, db2)
  | (.error e, db2) => (.error e, db2)

/-- `ReadApplicationByID`. -/
def ReadApplicationByID (application_id : Nat) (db : DB) : Option Application :=
  (db.applications.find? fun r => r.application_id == application_id).map
    _application_from_row

/-- `ReadAllApplications`: `ORDER BY application_id`. -/
def ReadAllApplications (db : DB) : List Application :=
  ((db.applications.mergeSort fun a b => decide (a.application_id ≤ b.application_id)).map
    _application_from_row)

/-- `UpdateApplication` (lines 493-511). -/
def UpdateApplication (app : Application) (db : DB) : Except String Bool × DB :=
  match app.application_id with
  | none => (.error "UpdateApplication requires app.application_id to be set.", db)
  | some aid =>
    match _execute_update_delete db
        (DB.updateApplicationStmt app.job_id app.applied_date app.source
          app.priority app.resume aid) with
    | (.ok rc, db2) =>
      if rc > 0 then (.ok true, db2)
      else (.ok (_exists (db2.applications.map (·.application_id)) aid), db2)
    | (.error e, db2) => (.error e, db2)

/-- `DeleteApplication`. -/
def DeleteApplication (application_id : Nat) (db : DB) : Except String Bool × DB :=
  match _execute_update_delete db (DB.deleteApplicationStmt application_id) with
  | (.ok rc, db2) => (.ok (decide (rc > 0)), db2)
  | (.error e, db2) => (.error e, db2)

end DataProvider

/-! ## The `_STATUS_JOIN_SELECT` result set (lines 31-75)

A result-set row of the four-way JOIN plus LEFT JOIN.  Field names follow
the SQL column aliases.  The `ct_*` columns of the LEFT JOIN are either all
null (no contact matched) or an entire `contact` row; that nullable branch
is a single `Option ContactRow`, and the Python check
`row.get("ct_contact_id") is None` is the check that this branch is
`none`. -/
structure JoinRow where
  s_status_id : Nat
  s_status : String
  a_application_id : Nat
  a_job_id : Nat
  a_applied_date : Option Date
  a_source : Option String
  a_priority : Option Int
  a_resume : Option String
  j_job_id : Nat
  j_company_id : Nat
  j_job_title : String
  j_job_location : Option String
  j_employment_type : Option String
  j_job_url : Option String
  j_salary : Option Decimal
  j_posted_date : Option Date
  c_company_id : Nat
  c_name : String
  c_website : Option String
  c_company_location : Option String
  ct : Option ContactRow
deriving DecidableEq

/-- Build one result-set row from the four inner-joined rows and the
nullable contact branch. -/
def JoinRow.ofRows (s : StatusRow) (a : ApplicationRow) (j : JobPostingRow)
    (c : CompanyRow) (ct : Option ContactRow) : JoinRow :=
  { s_status_id := s.status_id, s_status := s.status,
    a_application_id := a.application_id, a_job_id := a.job_id,
    a_applied_date := a.applied_date, a_source := a.source,
    a_priority := a.priority, a_resume := a.resume,
    j_job_id := j.job_id, j_company_id := j.company_id,
    j_job_title := j.job_title, j_job_location := j.job_location,
    j_employment_type := j.employment_type, j_job_url := j.job_url,
    j_salary := j.salary, j_posted_date := j.posted_date,
    c_company_id := c.company_id, c_name := c.name, c_website := c.website,
    c_company_location := c.company_location,
    ct := ct }

/-- `LEFT JOIN contact ct ON s.contact_id = ct.contact_id`: one output branch
per matching contact row, or a single all-null branch when `s.contact_id`
is null or matches nothing. -/
def DB.contactLeftJoin (db : DB) (s : StatusRow) : List (Option ContactRow) :=
  match s.contact_id with
  | none => [none]
  | some cid =>
    let hits := db.contacts.filter fun ct => ct.contact_id == cid
    if hits.isEmpty then [none] else hits.map some

/-- The full `_STATUS_JOIN_SELECT` result set:
`FROM application_status s JOIN application a JOIN job_posting j
JOIN company c LEFT JOIN contact ct`, each JOIN on the equality stated in
its ON clause. -/
def DB.statusJoinRows (db : DB) : List JoinRow :=
  db.application_statuses.flatMap fun s =>
    (db.applications.filter fun a => a.application_id == s.application_id).flatMap fun a =>
      (db.job_postings.filter fun j => j.job_id == a.job_id).flatMap fun j =>
        (db.companies.filter fun c => c.company_id == j.company_id).flatMap fun c =>
          (db.contactLeftJoin s).map fun ct => JoinRow.ofRows s a j c ct

/-- `INSERT INTO application_status (application_id, contact_id, status)`. -/
def DB.insertApplicationStatus (application_id : Nat) (contact_id : Option Nat)
    (status : String) (db : DB) : DB × Except String Nat :=
  let new_id := db.next_status_id
  ({ db with
      application_statuses := db.application_statuses ++
        [⟨new_id, application_id, contact_id, status⟩],
      next_status_id := new_id + 1 },
   .ok new_id)

/-- The SET clause of `UpdateApplicationStatus`'s UPDATE applied to one row. -/
def StatusRow.setVals (application_id : Nat) (contact_id : Option Nat)
    (status : String) (r : StatusRow) : StatusRow :=
  { r with application_id := application_id, contact_id := contact_id, status := status }

/-- `UPDATE application_status SET ... WHERE status_id = %s`. -/
def DB.updateApplicationStatusStmt (application_id : Nat) (contact_id : Option Nat)
    (status : String) (sid : Nat) (db : DB) : DB × Except String Nat :=
  let rowcount := db.application_statuses.countP fun r =>
    r.status_id == sid && r.setVals application_id contact_id status != r
  ({ db with
      application_statuses := db.application_statuses.map fun r =>
        if r.status_id == sid then r.setVals application_id contact_id status else r },
   .ok rowcount)

/-- `DELETE FROM application_status WHERE status_id = %s`. -/
def DB.deleteApplicationStatusStmt (sid : Nat) (db : DB) : DB × Except String Nat :=
  let rowcount := db.application_statuses.countP fun r => r.status_id == sid
  ({ db with
      application_statuses := db.application_statuses.filter fun r => r.status_id != sid },
   .ok rowcount)

namespace DataProvider

/-- `_application_status_from_join_row` (lines 230-279): unpack one flattened
join row into the nested object graph.  `StatusType(row["s_status"])` raises
`ValueError` on an unknown stored string, modelled by the `.error` branch. -/
def _application_status_from_join_row (row : JoinRow) : Except String ApplicationStatus :=
  let company : Company :=
    { company_id := some row.c_company_id, name := row.c_name,
      website := row.c_website, company_location := row.c_company_location }
  let job : JobPosting :=
    { job_id := some row.j_job_id, company_id := row.j_company_id,
      job_title := row.j_job_title, job_location := row.j_job_location,
      employment_type := row.j_employment_type, job_url := row.j_job_url,
      salary := row.j_salary, posted_date := row.j_posted_date }
  let application : Application :=
    { application_id := some row.a_application_id, job_id := row.a_job_id,
      applied_date := row.a_applied_date, source := row.a_source,
      priority := row.a_priority, resume := row.a_resume }
  let contact : Option Contact :=
    match row.ct with
    | none => none
    | some ctr =>
      some { contact_id := some ctr.contact_id, company_id := ctr.company_id,
             full_name := ctr.full_name, title := ctr.title, email := ctr.email,
             phone := ctr.phone, linkedin := ctr.linkedin }
  match StatusType.fromString row.s_status with
  | none => .error ("ValueError: " ++ row.s_status ++ " is not a valid StatusType")
  | some sv =>
    .ok { company := company, contact := contact, job := job,
          application := application, status_id := some row.s_status_id, status := sv }

/-! ## 5) APPLICATION_STATUS CRUD (lines 521-577) -/

/-- The INSERT half of `CreateApplicationStatus` (lines 529-537), reached
once validation has passed. -/
def CreateApplicationStatusInsert (status : ApplicationStatus) (aid : Nat)
    (contact_id : Option Nat) (db : DB) : Except String ApplicationStatus × DB :=
  match _execute_write db (DB.insertApplicationStatus aid contact_id status.status.value) with
  | (.ok new_id, db2) => (.ok { status with status_id := some new_id }, db2)
  | (.error e, db2) => (.error e, db2)

/-- `CreateApplicationStatus` (lines 521-537): validates that the referenced
application (and contact, when present) carries an id, then INSERTs and
returns `replace(status, status_id=new_id)`. -/
def CreateApplicationStatus (status : ApplicationStatus) (db : DB) :
    Except String ApplicationStatus × DB :=
  match status.application.application_id with
  | none =>
    (.error "CreateApplicationStatus requires status.application.application_id to be set.", db)
  | some aid =>
    let contact_id : Option Nat :=
      match status.contact with
      | none => none
      | some c => c.contact_id
    match status.contact with
    | some c =>
      match c.contact_id with
      | none =>
        (.error "CreateApplicationStatus: status.contact.contact_id must be set (or contact=None).", db)
      | some _ => CreateApplicationStatusInsert status aid contact_id db
    | none => CreateApplicationStatusInsert status aid contact_id db

/-- `ReadApplicationStatusByID` (lines 539-542):
`_STATUS_JOIN_SELECT + " WHERE s.status_id = %s"`, fetchone, map. -/
def ReadApplicationStatusByID (status_id : Nat) (db : DB) :
    Except String (Option ApplicationStatus) :=
  match db.statusJoinRows.find? fun r => r.s_status_id == status_id with
  | none => .ok none
  | some row => (_application_status_from_join_row row).map some

/-- `ReadAllApplicationStatuses` (lines 544-547):
`_STATUS_JOIN_SELECT + " ORDER BY s.status_id"`, map each row. -/
def ReadAllApplicationStatuses (db : DB) : Except String (List ApplicationStatus) :=
  (db.statusJoinRows.mergeSort fun a b => decide (a.s_status_id ≤ b.s_status_id)).mapM
    _application_status_from_join_row

/-- The UPDATE half of `UpdateApplicationStatus` (lines 559-572), reached
once validation has passed. -/
def UpdateApplicationStatusRun (aid : Nat) (contact_id : Option Nat) (sv : String)
    (sid : Nat) (db : DB) : Except String Bool × DB :=
  match _execute_update_delete db (DB.updateApplicationStatusStmt aid contact_id sv sid) with
  | (.ok rc, db2) =>
    if rc > 0 then (.ok true, db2)
    else (.ok (_exists (db2.application_statuses.map (·.status_id)) sid), db2)
  | (.error e, db2) => (.error e, db2)

/-- `UpdateApplicationStatus` (lines 549-572): the three validations, then
UPDATE plus the `_exists` disambiguation probe. -/
def UpdateApplicationStatus (status : ApplicationStatus) (db : DB) :
    Except String Bool × DB :=
  match status.status_id with
  | none => (.error "UpdateApplicationStatus requires status.status_id to be set.", db)
  | some sid =>
    match status.application.application_id with
    | none =>
      (.error "UpdateApplicationStatus requires status.application.application_id to be set.", db)
    | some aid =>
      let contact_id : Option Nat :=
        match status.contact with
        | none => none
        | some c => c.contact_id
      match status.contact with
      | some c =>
        match c.contact_id with
        | none =>
          (.error "UpdateApplicationStatus: status.contact.contact_id must be set (or contact=None).", db)
        | some _ => UpdateApplicationStatusRun aid contact_id status.status.value sid db
      | none => UpdateApplicationStatusRun aid contact_id status.status.value sid db

/-- `DeleteApplicationStatus` (lines 574-577). -/
def DeleteApplicationStatus (status_id : Nat) (db : DB) : Except String Bool × DB :=
  match _execute_update_delete db (DB.deleteApplicationStatusStmt status_id) with
  | (.ok rc, db2) => (.ok (decide (rc > 0)), db2)
  | (.error e, db2) => (.error e, db2)

end DataProvider

/-- Chain consistency of a reconstructed `ApplicationStatus` against the
database it was read from: its embedded `Application` is the one referenced
by some status row carrying its `status_id`, the embedded `JobPosting` is
the one the `Application` references, and the embedded `Company` is the one
the `JobPosting` references. -/
def DB.chainConsistent (db : DB) (st : ApplicationStatus) : Prop :=
  (∃ s ∈ db.application_statuses,
    st.status_id = some s.status_id ∧ st.application.application_id = some s.application_id) ∧
  st.job.job_id = some st.application.job_id ∧
  st.company.company_id = some st.job.company_id

/-!
# Theorems

The claim theorems, one per claim, preceded by the shared lemmas they
build on.
-/

/-! ## Shared lemmas -/

/-- A successful `mapM` over `Except` relates input and output pointwise. -/
theorem mapM_except_ok_forall2 {α β : Type} (f : α → Except String β) :
    ∀ (l : List α) (out : List β), l.mapM f = .ok out →
      List.Forall₂ (fun a b => f a = .ok b) l out := by
  intro l
  induction l with
  | nil =>
    intro out h
    rw [List.mapM_nil] at h
    cases h
    exact List.Forall₂.nil
  | cons x xs ih =>
    intro out h
    rw [List.mapM_cons] at h
    cases hfx : f x with
    | error e => rw [hfx] at h; cases h
    | ok y =>
      rw [hfx] at h
      cases hm : xs.mapM f with
      | error e => rw [hm] at h; cases h
      | ok ys =>
        rw [hm] at h
        cases h
        exact List.Forall₂.cons hfx (ih ys hm)

/-- Each member of the right list of a `Forall₂` has a related left member. -/
theorem forall2_mem_right {α β : Type} {R : α → β → Prop} :
    ∀ {l : List α} {m : List β}, List.Forall₂ R l m → ∀ b ∈ m, ∃ a ∈ l, R a b := by
  intro l m h
  induction h with
  | nil => intro b hb; cases hb
  | cons hR _ ih =>
    intro b hb
    rcases List.mem_cons.mp hb with hb | hb
    · exact ⟨_, List.mem_cons_self _ _, hb ▸ hR⟩
    · obtain ⟨a, ha, hr⟩ := ih b hb
      exact ⟨a, List.mem_cons_of_mem _ ha, hr⟩

/-- A pairwise property transfers along a `Forall₂` relation. -/
theorem forall2_pairwise_transfer {α β : Type} {R : α → β → Prop}
    {P : α → α → Prop} {Q : β → β → Prop}
    (compat : ∀ a b x y, R a x → R b y → P a b → Q x y) :
    ∀ {l : List α} {m : List β}, List.Forall₂ R l m → l.Pairwise P → m.Pairwise Q := by
  intro l m h
  induction h with
  | nil => intro _; exact List.Pairwise.nil
  | @cons a b l' m' hR hf ih =>
    intro hp
    obtain ⟨hhead, htail⟩ := List.pairwise_cons.mp hp
    refine List.pairwise_cons.mpr ⟨?_, ih htail⟩
    intro y hy
    obtain ⟨x, hx, hxy⟩ := forall2_mem_right hf y hy
    exact compat a x b y hR hxy (hhead x hx)

/-- In a list whose image under a key function is duplicate-free, at most one
element carries any given key. -/
theorem countP_key_le_one {α : Type} (f : α → Nat) (l : List α)
    (hnd : (l.map f).Nodup) (k : Nat) :
    l.countP (fun r => f r == k) ≤ 1 := by
  have h := List.nodup_iff_count_le_one.mp hnd k
  rw [List.count_eq_countP, List.countP_map] at h
  simpa [Function.comp_def] using h

/-- `any` over a mapped key column equals `any` of the key test on the rows. -/
theorem any_map_key {α : Type} (f : α → Nat) (k : Nat) (l : List α) :
    (l.map f).any (fun x => x == k) = l.any (fun r => f r == k) := by
  induction l with
  | nil => rfl
  | cons x xs ih => simp [List.any_cons, ih]

/-- `UpdateCompany` on a set identifier returns whether a row with that
identifier exists (the UPDATE's changed-row count, disambiguated by the
`_exists` probe). -/
theorem UpdateCompany_result (company : Company) (cid : Nat) (db : DB)
    (h : company.company_id = some cid) :
    (DataProvider.UpdateCompany company db).1 =
      .ok (db.companies.any fun r => r.company_id == cid) := by
  have hfun : ∀ r : CompanyRow,
      (if r.company_id = cid then
        r.setVals company.name company.website company.company_location else r).company_id =
      r.company_id := by
    intro r; split <;> rfl
  simp only [DataProvider.UpdateCompany, h, DataProvider._execute_update_delete,
    DB.updateCompanyStmt]
  split
  · rename_i hpos
    obtain ⟨r, hr, hp⟩ := List.countP_pos_iff.mp hpos
    have hid : (r.company_id == cid) = true := by
      simp only [Bool.and_eq_true] at hp
      exact hp.1
    have hany : db.companies.any (fun r => r.company_id == cid) = true :=
      List.any_eq_true.mpr ⟨r, hr, hid⟩
    rw [hany]
  · simp [DataProvider._exists, List.map_map, Function.comp_def, hfun]
    rw [any_map_key]

/-- `UpdateContact` analogue of `UpdateCompany_result`. -/
theorem UpdateContact_result (contact : Contact) (cid : Nat) (db : DB)
    (h : contact.contact_id = some cid) :
    (DataProvider.UpdateContact contact db).1 =
      .ok (db.contacts.any fun r => r.contact_id == cid) := by
  have hfun : ∀ r : ContactRow,
      (if r.contact_id = cid then
        r.setVals contact.company_id contact.full_name contact.title contact.email
          contact.phone contact.linkedin else r).contact_id =
      r.contact_id := by
    intro r; split <;> rfl
  simp only [DataProvider.UpdateContact, h, DataProvider._execute_update_delete,
    DB.updateContactStmt]
  split
  · rename_i hpos
    obtain ⟨r, hr, hp⟩ := List.countP_pos_iff.mp hpos
    have hid : (r.contact_id == cid) = true := by
      simp only [Bool.and_eq_true] at hp
      exact hp.1
    have hany : db.contacts.any (fun r => r.contact_id == cid) = true :=
      List.any_eq_true.mpr ⟨r, hr, hid⟩
    rw [hany]
  · simp [DataProvider._exists, List.map_map, Function.comp_def, hfun]
    rw [any_map_key]

/-- `UpdateJobPosting` analogue of `UpdateCompany_result`. -/
theorem UpdateJobPosting_result (job : JobPosting) (jid : Nat) (db : DB)
    (h : job.job_id = some jid) :
    (DataProvider.UpdateJobPosting job db).1 =
      .ok (db.job_postings.any fun r => r.job_id == jid) := by
  have hfun : ∀ r : JobPostingRow,
      (if r.job_id = jid then
        r.setVals job.company_id job.job_title job.job_location job.employment_type
          job.job_url job.salary job.posted_date else r).job_id =
      r.job_id := by
    intro r; split <;> rfl
  simp only [DataProvider.UpdateJobPosting, h, DataProvider._execute_update_delete,
    DB.updateJobPostingStmt]
  split
  · rename_i hpos
    obtain ⟨r, hr, hp⟩ := List.countP_pos_iff.mp hpos
    have hid : (r.job_id == jid) = true := by
      simp only [Bool.and_eq_true] at hp
      exact hp.1
    have hany : db.job_postings.any (fun r => r.job_id == jid) = true :=
      List.any_eq_true.mpr ⟨r, hr, hid⟩
    rw [hany]
  · simp [DataProvider._exists, List.map_map, Function.comp_def, hfun]
    rw [any_map_key]

/-- `UpdateApplication` analogue of `UpdateCompany_result`. -/
theorem UpdateApplication_result (app : Application) (aid : Nat) (db : DB)
    (h : app.application_id = some aid) :
    (DataProvider.UpdateApplication app db).1 =
      .ok (db.applications.any fun r => r.application_id == aid) := by
  have hfun : ∀ r : ApplicationRow,
      (if r.application_id = aid then
        r.setVals app.job_id app.applied_date app.source app.priority app.resume
        else r).application_id =
      r.application_id := by
    intro r; split <;> rfl
  simp only [DataProvider.UpdateApplication, h, DataProvider._execute_update_delete,
    DB.updateApplicationStmt]
  split
  · rename_i hpos
    obtain ⟨r, hr, hp⟩ := List.countP_pos_iff.mp hpos
    have hid : (r.application_id == aid) = true := by
      simp only [Bool.and_eq_true] at hp
      exact hp.1
    have hany : db.applications.any (fun r => r.application_id == aid) = true :=
      List.any_eq_true.mpr ⟨r, hr, hid⟩
    rw [hany]
  · simp [DataProvider._exists, List.map_map, Function.comp_def, hfun]
    rw [any_map_key]

/-- `UpdateApplicationStatusRun` (the post-validation half) analogue of
`UpdateCompany_result`. -/
theorem UpdateApplicationStatusRun_result (aid : Nat) (contact_id : Option Nat)
    (sv : String) (sid : Nat) (db : DB) :
    (DataProvider.UpdateApplicationStatusRun aid contact_id sv sid db).1 =
      .ok (db.application_statuses.any fun r => r.status_id == sid) := by
  have hfun : ∀ r : StatusRow,
      (if r.status_id = sid then r.setVals aid contact_id sv else r).status_id =
      r.status_id := by
    intro r; split <;> rfl
  simp only [DataProvider.UpdateApplicationStatusRun, DataProvider._execute_update_delete,
    DB.updateApplicationStatusStmt]
  split
  · rename_i hpos
    obtain ⟨r, hr, hp⟩ := List.countP_pos_iff.mp hpos
    have hid : (r.status_id == sid) = true := by
      simp only [Bool.and_eq_true] at hp
      exact hp.1
    have hany : db.application_statuses.any (fun r => r.status_id == sid) = true :=
      List.any_eq_true.mpr ⟨r, hr, hid⟩
    rw [hany]
  · simp [DataProvider._exists, List.map_map, Function.comp_def, hfun]
    rw [any_map_key]

/-- C1: every `UpdateX` called with the value's identifier set returns true
exactly when a row with that identifier exists (changed-row count positive,
or zero with the row still present — the matched-values no-op), and returns
false exactly when no row with that identifier exists. -/
theorem update_true_iff_identifier_exists (db : DB) :
    (∀ (company : Company) (cid : Nat), company.company_id = some cid →
      (((DataProvider.UpdateCompany company db).1 = .ok true) ↔
        ∃ r ∈ db.companies, r.company_id = cid) ∧
      (((DataProvider.UpdateCompany company db).1 = .ok false) ↔
        ∀ r ∈ db.companies, r.company_id ≠ cid)) ∧
    (∀ (contact : Contact) (cid : Nat), contact.contact_id = some cid →
      (((DataProvider.UpdateContact contact db).1 = .ok true) ↔
        ∃ r ∈ db.contacts, r.contact_id = cid) ∧
      (((DataProvider.UpdateContact contact db).1 = .ok false) ↔
        ∀ r ∈ db.contacts, r.contact_id ≠ cid)) ∧
    (∀ (job : JobPosting) (jid : Nat), job.job_id = some jid →
      (((DataProvider.UpdateJobPosting job db).1 = .ok true) ↔
        ∃ r ∈ db.job_postings, r.job_id = jid) ∧
      (((DataProvider.UpdateJobPosting job db).1 = .ok false) ↔
        ∀ r ∈ db.job_postings, r.job_id ≠ jid)) ∧
    (∀ (app : Application) (aid : Nat), app.application_id = some aid →
      (((DataProvider.UpdateApplication app db).1 = .ok true) ↔
        ∃ r ∈ db.applications, r.application_id = aid) ∧
      (((DataProvider.UpdateApplication app db).1 = .ok false) ↔
        ∀ r ∈ db.applications, r.application_id ≠ aid)) ∧
    (∀ (status : ApplicationStatus) (sid aid : Nat), status.status_id = some sid →
      status.application.application_id = some aid →
      (status.contact = none ∨ ∃ (ct : Contact) (cid : Nat),
        status.contact = some ct ∧ ct.contact_id = some cid) →
      (((DataProvider.UpdateApplicationStatus status db).1 = .ok true) ↔
        ∃ r ∈ db.application_statuses, r.status_id = sid) ∧
      (((DataProvider.UpdateApplicationStatus status db).1 = .ok false) ↔
        ∀ r ∈ db.application_statuses, r.status_id ≠ sid)) := by
  refine ⟨?_, ?_, ?_, ?_, ?_⟩
  · intro company cid h
    rw [UpdateCompany_result company cid db h]
    constructor
    · simp [List.any_eq_true]
    · simp [List.any_eq_false]
  · intro contact cid h
    rw [UpdateContact_result contact cid db h]
    constructor
    · simp [List.any_eq_true]
    · simp [List.any_eq_false]
  · intro job jid h
    rw [UpdateJobPosting_result job jid db h]
    constructor
    · simp [List.any_eq_true]
    · simp [List.any_eq_false]
  · intro app aid h
    rw [UpdateApplication_result app aid db h]
    constructor
    · simp [List.any_eq_true]
    · simp [List.any_eq_false]
  · intro status sid aid h1 h2 hc
    have hred : (DataProvider.UpdateApplicationStatus status db).1 =
        .ok (db.application_statuses.any fun r => r.status_id == sid) := by
      rcases hc with hc | ⟨ct, cid, hc, hcid⟩
      · rw [show DataProvider.UpdateApplicationStatus status db =
            DataProvider.UpdateApplicationStatusRun aid none status.status.value sid db
          by simp [DataProvider.UpdateApplicationStatus, h1, h2, hc]]
        exact UpdateApplicationStatusRun_result aid none status.status.value sid db
      · rw [show DataProvider.UpdateApplicationStatus status db =
            DataProvider.UpdateApplicationStatusRun aid (some cid) status.status.value sid db
          by simp [DataProvider.UpdateApplicationStatus, h1, h2, hc, hcid]]
        exact UpdateApplicationStatusRun_result aid (some cid) status.status.value sid db
    rw [hred]
    constructor
    · simp [List.any_eq_true]
    · simp [List.any_eq_false]

/-- Witness for C1: a no-op update on the existing row returns true, an
update on a missing identifier returns false. -/
theorem update_true_iff_identifier_exists_witness :
    (DataProvider.UpdateCompany (⟨some 1, "Acme", none, none⟩ : Company)
      (⟨[⟨1, "Acme", none, none⟩], [], [], [], [], 2, 1, 1, 1, 1⟩ : DB)).1 = .ok true ∧
    (DataProvider.UpdateCompany (⟨some 2, "Acme", none, none⟩ : Company)
      (⟨[⟨1, "Acme", none, none⟩], [], [], [], [], 2, 1, 1, 1, 1⟩ : DB)).1 = .ok false := by
  constructor
  · exact ((update_true_iff_identifier_exists
        (⟨[⟨1, "Acme", none, none⟩], [], [], [], [], 2, 1, 1, 1, 1⟩ : DB)).1
      (⟨some 1, "Acme", none, none⟩ : Company) 1 rfl).1.mpr
      ⟨⟨1, "Acme", none, none⟩, by simp, rfl⟩
  · exact ((update_true_iff_identifier_exists
        (⟨[⟨1, "Acme", none, none⟩], [], [], [], [], 2, 1, 1, 1, 1⟩ : DB)).1
      (⟨some 2, "Acme", none, none⟩ : Company) 2 rfl).2.mpr (by decide)

/-- The key count and the post-DELETE table length balance out. -/
theorem delete_length_iff {α : Type} (f : α → Nat) (k : Nat) (l : List α)
    (hnd : (l.map f).Nodup) :
    (0 < l.countP (fun r => f r == k)) ↔
      l.length = (l.filter fun r => f r != k).length + 1 := by
  have hle := countP_key_le_one f l hnd k
  have hlen : l.countP (fun r => f r == k) +
      (l.filter fun r => f r != k).length = l.length := by
    have hperm := List.filter_append_perm (fun r => f r == k) l
    have h2 := hperm.length_eq
    rw [List.length_append] at h2
    rw [List.countP_eq_length_filter]
    convert h2 using 3
  omega

/-- Decomposition of membership in the `_STATUS_JOIN_SELECT` result set: every
result row arises from a status row, an application row, a job row and a
company row satisfying the three ON-clause equalities, plus a LEFT JOIN
contact branch. -/
theorem mem_statusJoinRows_elim (db : DB) (row : JoinRow) (h : row ∈ db.statusJoinRows) :
    ∃ s ∈ db.application_statuses, ∃ a ∈ db.applications, ∃ j ∈ db.job_postings,
      ∃ c ∈ db.companies, ∃ ct ∈ db.contactLeftJoin s,
      a.application_id = s.application_id ∧ j.job_id = a.job_id ∧
      c.company_id = j.company_id ∧ row = JoinRow.ofRows s a j c ct := by
  simp only [DB.statusJoinRows, List.mem_flatMap, List.mem_filter, List.mem_map,
    beq_iff_eq] at h
  obtain ⟨s, hs, a, ⟨ha, hae⟩, j, ⟨hj, hje⟩, c, ⟨hc, hce⟩, ct, hct, hrow⟩ := h
  exact ⟨s, hs, a, ha, j, hj, c, hc, ct, hct, hae, hje, hce, hrow.symm⟩

/-- After `DeleteApplicationStatus`, the join read finds no row for that id. -/
theorem read_status_after_delete (db : DB) (sid : Nat) :
    DataProvider.ReadApplicationStatusByID sid
      (DataProvider.DeleteApplicationStatus sid db).2 = .ok none := by
  have hfind : ((DataProvider.DeleteApplicationStatus sid db).2).statusJoinRows.find?
      (fun r => r.s_status_id == sid) = none := by
    rw [List.find?_eq_none]
    intro row hrow
    obtain ⟨s, hs, a, _, j, _, c, _, ct, _, _, _, _, hrow_eq⟩ :=
      mem_statusJoinRows_elim _ row hrow
    have hsf : s ∈ db.application_statuses.filter (fun r => r.status_id != sid) := hs
    have hne := (List.mem_filter.mp hsf).2
    subst hrow_eq
    simpa [JoinRow.ofRows] using hne
  simp [DataProvider.ReadApplicationStatusByID, hfind]

/-- C4: every `DeleteX(id)` returns true exactly when a row with that
identifier existed (false on a non-existent identifier), a subsequent
`ReadXByID(id)` returns absent, and — under the schema's primary-key
uniqueness — returning true coincides with exactly one row having been
removed. -/
theorem delete_true_iff_one_row_removed (db : DB) :
    (∀ cid : Nat,
      (((DataProvider.DeleteCompany cid db).1 = .ok true) ↔
        ∃ r ∈ db.companies, r.company_id = cid) ∧
      DataProvider.ReadCompanyByID cid (DataProvider.DeleteCompany cid db).2 = none ∧
      ((db.companies.map (·.company_id)).Nodup →
        (((DataProvider.DeleteCompany cid db).1 = .ok true) ↔
          db.companies.length = ((DataProvider.DeleteCompany cid db).2).companies.length + 1))) ∧
    (∀ cid : Nat,
      (((DataProvider.DeleteContact cid db).1 = .ok true) ↔
        ∃ r ∈ db.contacts, r.contact_id = cid) ∧
      DataProvider.ReadContactByID cid (DataProvider.DeleteContact cid db).2 = none ∧
      ((db.contacts.map (·.contact_id)).Nodup →
        (((DataProvider.DeleteContact cid db).1 = .ok true) ↔
          db.contacts.length = ((DataProvider.DeleteContact cid db).2).contacts.length + 1))) ∧
    (∀ jid : Nat,
      (((DataProvider.DeleteJobPosting jid db).1 = .ok true) ↔
        ∃ r ∈ db.job_postings, r.job_id = jid) ∧
      DataProvider.ReadJobPostingByID jid (DataProvider.DeleteJobPosting jid db).2 = none ∧
      ((db.job_postings.map (·.job_id)).Nodup →
        (((DataProvider.DeleteJobPosting jid db).1 = .ok true) ↔
          db.job_postings.length = ((DataProvider.DeleteJobPosting jid db).2).job_postings.length + 1))) ∧
    (∀ aid : Nat,
      (((DataProvider.DeleteApplication aid db).1 = .ok true) ↔
        ∃ r ∈ db.applications, r.application_id = aid) ∧
      DataProvider.ReadApplicationByID aid (DataProvider.DeleteApplication aid db).2 = none ∧
      ((db.applications.map (·.application_id)).Nodup →
        (((DataProvider.DeleteApplication aid db).1 = .ok true) ↔
          db.applications.length = ((DataProvider.DeleteApplication aid db).2).applications.length + 1))) ∧
    (∀ sid : Nat,
      (((DataProvider.DeleteApplicationStatus sid db).1 = .ok true) ↔
        ∃ r ∈ db.application_statuses, r.status_id = sid) ∧
      DataProvider.ReadApplicationStatusByID sid
        (DataProvider.DeleteApplicationStatus sid db).2 = .ok none ∧
      ((db.application_statuses.map (·.status_id)).Nodup →
        (((DataProvider.DeleteApplicationStatus sid db).1 = .ok true) ↔
          db.application_statuses.length =
            ((DataProvider.DeleteApplicationStatus sid db).2).application_statuses.length + 1))) := by
  refine ⟨?_, ?_, ?_, ?_, ?_⟩
  · intro cid
    refine ⟨?_, ?_, ?_⟩
    · simp [DataProvider.DeleteCompany, DataProvider._execute_update_delete,
        DB.deleteCompanyStmt, List.countP_pos_iff]
    · simp [DataProvider.DeleteCompany, DataProvider._execute_update_delete,
        DB.deleteCompanyStmt, DataProvider.ReadCompanyByID, List.find?_eq_none,
        List.mem_filter]
    · intro hnd
      have hiff := delete_length_iff (fun r : CompanyRow => r.company_id) cid db.companies hnd
      simp only [DataProvider.DeleteCompany, DataProvider._execute_update_delete,
        DB.deleteCompanyStmt]
      simpa using hiff
  · intro cid
    refine ⟨?_, ?_, ?_⟩
    · simp [DataProvider.DeleteContact, DataProvider._execute_update_delete,
        DB.deleteContactStmt, List.countP_pos_iff]
    · simp [DataProvider.DeleteContact, DataProvider._execute_update_delete,
        DB.deleteContactStmt, DataProvider.ReadContactByID, List.find?_eq_none,
        List.mem_filter]
    · intro hnd
      have hiff := delete_length_iff (fun r : ContactRow => r.contact_id) cid db.contacts hnd
      simp only [DataProvider.DeleteContact, DataProvider._execute_update_delete,
        DB.deleteContactStmt]
      simpa using hiff
  · intro jid
    refine ⟨?_, ?_, ?_⟩
    · simp [DataProvider.DeleteJobPosting, DataProvider._execute_update_delete,
        DB.deleteJobPostingStmt, List.countP_pos_iff]
    · simp [DataProvider.DeleteJobPosting, DataProvider._execute_update_delete,
        DB.deleteJobPostingStmt, DataProvider.ReadJobPostingByID, List.find?_eq_none,
        List.mem_filter]
    · intro hnd
      have hiff := delete_length_iff (fun r : JobPostingRow => r.job_id) jid db.job_postings hnd
      simp only [DataProvider.DeleteJobPosting, DataProvider._execute_update_delete,
        DB.deleteJobPostingStmt]
      simpa using hiff
  · intro aid
    refine ⟨?_, ?_, ?_⟩
    · simp [DataProvider.DeleteApplication, DataProvider._execute_update_delete,
        DB.deleteApplicationStmt, List.countP_pos_iff]
    · simp [DataProvider.DeleteApplication, DataProvider._execute_update_delete,
        DB.deleteApplicationStmt, DataProvider.ReadApplicationByID, List.find?_eq_none,
        List.mem_filter]
    · intro hnd
      have hiff := delete_length_iff (fun r : ApplicationRow => r.application_id) aid db.applications hnd
      simp only [DataProvider.DeleteApplication, DataProvider._execute_update_delete,
        DB.deleteApplicationStmt]
      simpa using hiff
  · intro sid
    refine ⟨?_, read_status_after_delete db sid, ?_⟩
    · simp [DataProvider.DeleteApplicationStatus, DataProvider._execute_update_delete,
        DB.deleteApplicationStatusStmt, List.countP_pos_iff]
    · intro hnd
      have hiff := delete_length_iff (fun r : StatusRow => r.status_id) sid db.application_statuses hnd
      simp only [DataProvider.DeleteApplicationStatus, DataProvider._execute_update_delete,
        DB.deleteApplicationStatusStmt]
      simpa using hiff

/-- Witness for C4: deleting an existing company returns true, its length
shrinks by one under uniqueness, and deleting a missing id returns false. -/
theorem delete_true_iff_one_row_removed_witness :
    (DataProvider.DeleteCompany 1
      (⟨[⟨1, "Acme", none, none⟩], [], [], [], [], 2, 1, 1, 1, 1⟩ : DB)).1 = .ok true ∧
    (DataProvider.DeleteCompany 7
      (⟨[⟨1, "Acme", none, none⟩], [], [], [], [], 2, 1, 1, 1, 1⟩ : DB)).1 ≠ .ok true := by
  constructor
  · exact ((delete_true_iff_one_row_removed
        (⟨[⟨1, "Acme", none, none⟩], [], [], [], [], 2, 1, 1, 1, 1⟩ : DB)).1 1).1.mpr
      ⟨⟨1, "Acme", none, none⟩, by simp, rfl⟩
  · intro hcontra
    exact absurd (((delete_true_iff_one_row_removed
        (⟨[⟨1, "Acme", none, none⟩], [], [], [], [], 2, 1, 1, 1, 1⟩ : DB)).1 7).1.mp hcontra)
      (by decide)

/-- Field equations of a successfully unpacked join row. -/
theorem from_join_row_fields (row : JoinRow) (st : ApplicationStatus)
    (h : DataProvider._application_status_from_join_row row = .ok st) :
    st.status_id = some row.s_status_id ∧
    st.application.application_id = some row.a_application_id ∧
    st.application.job_id = row.a_job_id ∧
    st.job.job_id = some row.j_job_id ∧
    st.job.company_id = row.j_company_id ∧
    st.company.company_id = some row.c_company_id ∧
    st.contact = row.ct.map DataProvider._contact_from_row := by
  unfold DataProvider._application_status_from_join_row at h
  cases hs : StatusType.fromString row.s_status with
  | none => rw [hs] at h; cases h
  | some sv =>
    rw [hs] at h
    injection h with h2
    subst h2
    refine ⟨rfl, rfl, rfl, rfl, rfl, rfl, ?_⟩
    cases row.ct <;> rfl

/-- Any `ApplicationStatus` unpacked from a row of the join result set is
chain-consistent with the database. -/
theorem statusJoinRows_chain (db : DB) (row : JoinRow) (st : ApplicationStatus)
    (hrow : row ∈ db.statusJoinRows)
    (hok : DataProvider._application_status_from_join_row row = .ok st) :
    db.chainConsistent st := by
  obtain ⟨s, hs, a, ha, j, hj, c, hc, ct, hct, hae, hje, hce, heq⟩ :=
    mem_statusJoinRows_elim db row hrow
  obtain ⟨h1, h2, h3, h4, h5, h6, h7⟩ := from_join_row_fields row st hok
  subst heq
  simp only [JoinRow.ofRows] at h1 h2 h3 h4 h5 h6
  refine ⟨⟨s, hs, h1, ?_⟩, ?_, ?_⟩
  · rw [h2]; exact congrArg some hae
  · rw [h4, h3, hje]
  · rw [h6, h5, hce]

/-- C5: every `ApplicationStatus` returned by `ReadApplicationStatusByID` or
`ReadAllApplicationStatuses` is chain-consistent: its embedded Application
is the one referenced by the status row, the embedded JobPosting's `job_id`
equals the Application's `job_id`, and the embedded Company's `company_id`
equals the JobPosting's `company_id`. -/
theorem status_reads_chain_consistent (db : DB) :
    (∀ l : List ApplicationStatus, DataProvider.ReadAllApplicationStatuses db = .ok l →
      ∀ st ∈ l, db.chainConsistent st) ∧
    (∀ (sid : Nat) (st : ApplicationStatus),
      DataProvider.ReadApplicationStatusByID sid db = .ok (some st) →
      db.chainConsistent st) := by
  constructor
  · intro l hl st hst
    unfold DataProvider.ReadAllApplicationStatuses at hl
    have hf := mapM_except_ok_forall2 DataProvider._application_status_from_join_row _ l hl
    obtain ⟨row, hrowmem, hok⟩ := forall2_mem_right hf st hst
    have hrow : row ∈ db.statusJoinRows :=
      (List.mergeSort_perm db.statusJoinRows _).mem_iff.mp hrowmem
    exact statusJoinRows_chain db row st hrow hok
  · intro sid st h
    unfold DataProvider.ReadApplicationStatusByID at h
    cases hfind : db.statusJoinRows.find? (fun r => r.s_status_id == sid) with
    | none => rw [hfind] at h; cases h
    | some row =>
      rw [hfind] at h
      dsimp only at h
      cases hok : DataProvider._application_status_from_join_row row with
      | error e => rw [hok] at h; simp [Except.map] at h
      | ok st2 =>
        rw [hok] at h
        simp only [Except.map, Except.ok.injEq, Option.some.injEq] at h
        subst h
        exact statusJoinRows_chain db row _ (List.mem_of_find?_eq_some hfind) hok

/-- Witness for C5: the status read back from a one-of-each database is
chain-consistent. -/
theorem status_reads_chain_consistent_witness :
    DB.chainConsistent
      (⟨[⟨1, "Acme", none, none⟩], [⟨1, 1, "Ann", none, none, none, none⟩],
        [⟨1, 1, "Dev", none, none, none, none, none⟩], [⟨1, 1, none, none, none, none⟩],
        [⟨1, 1, some 1, "APPLIED"⟩], 2, 2, 2, 2, 2⟩ : DB)
      (⟨⟨some 1, "Acme", none, none⟩, some ⟨some 1, 1, "Ann", none, none, none, none⟩,
        ⟨some 1, 1, "Dev", none, none, none, none, none⟩, ⟨some 1, 1, none, none, none, none⟩,
        some 1, .APPLIED⟩ : ApplicationStatus) :=
  (status_reads_chain_consistent
      (⟨[⟨1, "Acme", none, none⟩], [⟨1, 1, "Ann", none, none, none, none⟩],
        [⟨1, 1, "Dev", none, none, none, none, none⟩], [⟨1, 1, none, none, none, none⟩],
        [⟨1, 1, some 1, "APPLIED"⟩], 2, 2, 2, 2, 2⟩ : DB)).2 1
    (⟨⟨some 1, "Acme", none, none⟩, some ⟨some 1, 1, "Ann", none, none, none, none⟩,
      ⟨some 1, 1, "Dev", none, none, none, none, none⟩, ⟨some 1, 1, none, none, none, none⟩,
      some 1, .APPLIED⟩ : ApplicationStatus) (by rfl)

/-- C6: unpacking a join row whose contact-identifier branch is null yields an
`ApplicationStatus` with an absent contact — no partially-null `Contact` is
built; when it is non-null, the result carries a `Contact` populated from
the row's contact columns. -/
theorem join_row_contact_nullability (row : JoinRow) (st : ApplicationStatus)
    (h : DataProvider._application_status_from_join_row row = .ok st) :
    (row.ct = none → st.contact = none) ∧
    (∀ ctr : ContactRow, row.ct = some ctr →
      st.contact = some (DataProvider._contact_from_row ctr)) := by
  have h7 := (from_join_row_fields row st h).2.2.2.2.2.2
  constructor
  · intro hn; rw [h7, hn]; rfl
  · intro ctr hc; rw [h7, hc]; rfl

/-- Witness for C6: a join row with a null contact branch unpacks to a status
whose contact is absent. -/
theorem join_row_contact_nullability_witness :
    (⟨⟨some 1, "Acme", none, none⟩, none, ⟨some 1, 1, "Dev", none, none, none, none, none⟩,
      ⟨some 1, 1, none, none, none, none⟩, some 2, .SAVED⟩ : ApplicationStatus).contact =
      none :=
  (join_row_contact_nullability
      (⟨2, "SAVED", 1, 1, none, none, none, none, 1, 1, "Dev", none, none, none, none, none,
        1, "Acme", none, none, none⟩ : JoinRow)
      (⟨⟨some 1, "Acme", none, none⟩, none, ⟨some 1, 1, "Dev", none, none, none, none, none⟩,
        ⟨some 1, 1, none, none, none, none⟩, some 2, .SAVED⟩ : ApplicationStatus)
      (by rfl)).1 rfl

/-- C8: every `CreateX` returns the input value with only its identifier field
replaced by the newly assigned row id (the table's auto-increment value,
which is also the id of the row the INSERT appended); every other field of
the returned value equals the corresponding field of the input. -/
theorem create_returns_input_with_new_id (db : DB) :
    (∀ company : Company,
      DataProvider.CreateCompany company db =
        (.ok { company with company_id := some db.next_company_id },
         { db with
            companies := db.companies ++
              [⟨db.next_company_id, company.name, company.website, company.company_location⟩],
            next_company_id := db.next_company_id + 1 })) ∧
    (∀ contact : Contact,
      DataProvider.CreateContact contact db =
        (.ok { contact with contact_id := some db.next_contact_id },
         { db with
            contacts := db.contacts ++
              [⟨db.next_contact_id, contact.company_id, contact.full_name, contact.title,
                contact.email, contact.phone, contact.linkedin⟩],
            next_contact_id := db.next_contact_id + 1 })) ∧
    (∀ job : JobPosting,
      DataProvider.CreateJobPosting job db =
        (.ok { job with job_id := some db.next_job_id },
         { db with
            job_postings := db.job_postings ++
              [⟨db.next_job_id, job.company_id, job.job_title, job.job_location,
                job.employment_type, job.job_url, job.salary, job.posted_date⟩],
            next_job_id := db.next_job_id + 1 })) ∧
    (∀ app : Application,
      DataProvider.CreateApplication app db =
        (.ok { app with application_id := some db.next_application_id },
         { db with
            applications := db.applications ++
              [⟨db.next_application_id, app.job_id, app.applied_date, app.source,
                app.priority, app.resume⟩],
            next_application_id := db.next_application_id + 1 })) ∧
    (∀ (status : ApplicationStatus) (aid : Nat),
      status.application.application_id = some aid →
      (status.contact = none ∨ ∃ (ct : Contact) (cid : Nat),
        status.contact = some ct ∧ ct.contact_id = some cid) →
      (DataProvider.CreateApplicationStatus status db).1 =
        .ok { status with status_id := some db.next_status_id }) := by
  refine ⟨fun company => rfl, fun contact => rfl, fun job => rfl, fun app => rfl, ?_⟩
  intro status aid ha hc
  rcases hc with hc | ⟨ct, cid, hc, hcid⟩
  · simp [DataProvider.CreateApplicationStatus, ha, hc,
      DataProvider.CreateApplicationStatusInsert, DataProvider._execute_write,
      DB.insertApplicationStatus]
  · simp [DataProvider.CreateApplicationStatus, ha, hc, hcid,
      DataProvider.CreateApplicationStatusInsert, DataProvider._execute_write,
      DB.insertApplicationStatus]

/-- Witness for C8: creating a status (application id present, no contact) on
a one-of-each database returns the input with `status_id` freshly set. -/
theorem create_returns_input_with_new_id_witness :
    (DataProvider.CreateApplicationStatus
      (⟨⟨some 1, "Acme", none, none⟩, none, ⟨some 1, 1, "Dev", none, none, none, none, none⟩,
        ⟨some 1, 1, none, none, none, none⟩, none, .SCREEN⟩ : ApplicationStatus)
      (⟨[⟨1, "Acme", none, none⟩], [], [⟨1, 1, "Dev", none, none, none, none, none⟩],
        [⟨1, 1, none, none, none, none⟩], [], 2, 1, 2, 2, 1⟩ : DB)).1 =
      .ok (⟨⟨some 1, "Acme", none, none⟩, none, ⟨some 1, 1, "Dev", none, none, none, none, none⟩,
        ⟨some 1, 1, none, none, none, none⟩, some 1, .SCREEN⟩ : ApplicationStatus) :=
  (create_returns_input_with_new_id
      (⟨[⟨1, "Acme", none, none⟩], [], [⟨1, 1, "Dev", none, none, none, none, none⟩],
        [⟨1, 1, none, none, none, none⟩], [], 2, 1, 2, 2, 1⟩ : DB)).2.2.2.2
    (⟨⟨some 1, "Acme", none, none⟩, none, ⟨some 1, 1, "Dev", none, none, none, none, none⟩,
      ⟨some 1, 1, none, none, none, none⟩, none, .SCREEN⟩ : ApplicationStatus)
    1 rfl (Or.inl rfl)

/-- C2: every read through `_execute` terminates the implicit transaction via
rollback on every exit path (rollback is attempted whether the query
succeeded or failed, and the transaction is closed whenever the rollback
itself succeeds), the original query outcome — value or error — propagates
unchanged to the caller, and a rollback failure during cleanup is swallowed
rather than replacing the read's outcome. -/
theorem execute_read_always_rolls_back {α : Type} (queryResult : Except String α)
    (rollback_ok : Bool) :
    (DataProvider._execute queryResult rollback_ok).1 = queryResult ∧
    (DataProvider._execute queryResult rollback_ok).2.2 = true ∧
    (rollback_ok = true →
      ((DataProvider._execute queryResult rollback_ok).2.1).txnOpen = false) := by
  cases rollback_ok <;>
    simp [DataProvider._execute, DataProvider.autocommitSetting]

/-- Witness for C2: a failed read still propagates its own error, rollback is
attempted, and the transaction ends closed. -/
theorem execute_read_always_rolls_back_witness :
    (DataProvider._execute (Except.error "connection lost" : Except String Nat) true).1 =
      Except.error "connection lost" ∧
    (DataProvider._execute (Except.error "connection lost" : Except String Nat) true).2.2 = true ∧
    ((DataProvider._execute (Except.error "connection lost" : Except String Nat) true).2.1).txnOpen =
      false := by
  obtain ⟨h1, h2, h3⟩ :=
    execute_read_always_rolls_back (Except.error "connection lost" : Except String Nat) true
  exact ⟨h1, h2, h3 rfl⟩

/-- C3: both write-side helpers commit the statement's effect on success and
roll back before re-raising on failure, so the caller never observes a
partially-applied write — on the error path the resulting database equals
the original, discarding whatever the statement changed before failing. -/
theorem write_helpers_commit_or_rollback (db db2 : DB)
    (stmt : DB → DB × Except String Nat) :
    (∀ e : String, stmt db = (db2, .error e) →
      DataProvider._execute_write db stmt = (.error e, db) ∧
      DataProvider._execute_update_delete db stmt = (.error e, db)) ∧
    (∀ n : Nat, stmt db = (db2, .ok n) →
      DataProvider._execute_write db stmt = (.ok n, db2) ∧
      DataProvider._execute_update_delete db stmt = (.ok n, db2)) := by
  constructor
  · intro e h
    constructor <;>
      simp [DataProvider._execute_write, DataProvider._execute_update_delete, h]
  · intro n h
    constructor <;>
      simp [DataProvider._execute_write, DataProvider._execute_update_delete, h]

/-- Witness for C3: a statement that mutates the working state and then
fails leaves the committed database unchanged through both helpers. -/
theorem write_helpers_commit_or_rollback_witness :
    DataProvider._execute_write (⟨[], [], [], [], [], 1, 1, 1, 1, 1⟩ : DB)
      (fun d => ({ d with next_company_id := 99 }, .error "deadlock")) =
      (.error "deadlock", (⟨[], [], [], [], [], 1, 1, 1, 1, 1⟩ : DB)) ∧
    DataProvider._execute_update_delete (⟨[], [], [], [], [], 1, 1, 1, 1, 1⟩ : DB)
      (fun d => ({ d with next_company_id := 99 }, .error "deadlock")) =
      (.error "deadlock", (⟨[], [], [], [], [], 1, 1, 1, 1, 1⟩ : DB)) :=
  (write_helpers_commit_or_rollback (⟨[], [], [], [], [], 1, 1, 1, 1, 1⟩ : DB)
      (⟨[], [], [], [], [], 99, 1, 1, 1, 1⟩ : DB)
      (fun d => ({ d with next_company_id := 99 }, .error "deadlock"))).1
    "deadlock" rfl

/-- C7: every `UpdateX` on a value whose identifier is absent, and
`CreateApplicationStatus` on a status whose application (or present
contact) has no identifier, raises the validation `ValueError` locally and
returns the database unchanged — no statement ever reaches it. -/
theorem validation_errors_precede_db_calls (db : DB) :
    (∀ company : Company, company.company_id = none →
      DataProvider.UpdateCompany company db =
        (.error "UpdateCompany requires company.company_id to be set.", db)) ∧
    (∀ contact : Contact, contact.contact_id = none →
      DataProvider.UpdateContact contact db =
        (.error "UpdateContact requires contact.contact_id to be set.", db)) ∧
    (∀ job : JobPosting, job.job_id = none →
      DataProvider.UpdateJobPosting job db =
        (.error "UpdateJobPosting requires job.job_id to be set.", db)) ∧
    (∀ app : Application, app.application_id = none →
      DataProvider.UpdateApplication app db =
        (.error "UpdateApplication requires app.application_id to be set.", db)) ∧
    (∀ status : ApplicationStatus, status.status_id = none →
      DataProvider.UpdateApplicationStatus status db =
        (.error "UpdateApplicationStatus requires status.status_id to be set.", db)) ∧
    (∀ status : ApplicationStatus, status.application.application_id = none →
      DataProvider.CreateApplicationStatus status db =
        (.error "CreateApplicationStatus requires status.application.application_id to be set.", db)) ∧
    (∀ (status : ApplicationStatus) (ct : Contact) (aid : Nat),
      status.application.application_id = some aid → status.contact = some ct →
      ct.contact_id = none →
      DataProvider.CreateApplicationStatus status db =
        (.error "CreateApplicationStatus: status.contact.contact_id must be set (or contact=None).", db)) := by
  refine ⟨?_, ?_, ?_, ?_, ?_, ?_, ?_⟩
  · intro company h; simp [DataProvider.UpdateCompany, h]
  · intro contact h; simp [DataProvider.UpdateContact, h]
  · intro job h; simp [DataProvider.UpdateJobPosting, h]
  · intro app h; simp [DataProvider.UpdateApplication, h]
  · intro status h; simp [DataProvider.UpdateApplicationStatus, h]
  · intro status h; simp [DataProvider.CreateApplicationStatus, h]
  · intro status ct aid h1 h2 h3
    simp [DataProvider.CreateApplicationStatus, h1, h2, h3]

/-- Witness for C7: updating a company whose id is absent fails with the
validation error and leaves a one-row database untouched. -/
theorem validation_errors_precede_db_calls_witness :
    DataProvider.UpdateCompany (⟨none, "Acme", none, none⟩ : Company)
      (⟨[⟨1, "Acme", none, none⟩], [], [], [], [], 2, 1, 1, 1, 1⟩ : DB) =
      (.error "UpdateCompany requires company.company_id to be set.",
       (⟨[⟨1, "Acme", none, none⟩], [], [], [], [], 2, 1, 1, 1, 1⟩ : DB)) :=
  (validation_errors_precede_db_calls
      (⟨[⟨1, "Acme", none, none⟩], [], [], [], [], 2, 1, 1, 1, 1⟩ : DB)).1
    (⟨none, "Acme", none, none⟩ : Company) rfl

/-- C10: beyond the generic identifier precondition, `UpdateApplicationStatus`
raises a validation error before any database call — returning the database
unchanged — when the embedded application has no identifier, or when a
contact is present but has no identifier. -/
theorem update_status_extra_validations (db : DB) (status : ApplicationStatus)
    (sid : Nat) (h : status.status_id = some sid) :
    (status.application.application_id = none →
      DataProvider.UpdateApplicationStatus status db =
        (.error "UpdateApplicationStatus requires status.application.application_id to be set.", db)) ∧
    (∀ (ct : Contact) (aid : Nat), status.application.application_id = some aid →
      status.contact = some ct → ct.contact_id = none →
      DataProvider.UpdateApplicationStatus status db =
        (.error "UpdateApplicationStatus: status.contact.contact_id must be set (or contact=None).", db)) := by
  constructor
  · intro ha; simp [DataProvider.UpdateApplicationStatus, h, ha]
  · intro ct aid ha hc hcid
    simp [DataProvider.UpdateApplicationStatus, h, ha, hc, hcid]

/-- Witness for C10: a status with `status_id` set whose embedded application
lacks an id fails the stricter validation with the database untouched. -/
theorem update_status_extra_validations_witness :
    DataProvider.UpdateApplicationStatus
      (⟨⟨some 1, "Acme", none, none⟩, none, ⟨some 1, 1, "Dev", none, none, none, none, none⟩,
        ⟨none, 1, none, none, none, none⟩, some 1, .SAVED⟩ : ApplicationStatus)
      (⟨[], [], [], [], [], 1, 1, 1, 1, 1⟩ : DB) =
      (.error "UpdateApplicationStatus requires status.application.application_id to be set.",
       (⟨[], [], [], [], [], 1, 1, 1, 1, 1⟩ : DB)) :=
  (update_status_extra_validations (⟨[], [], [], [], [], 1, 1, 1, 1, 1⟩ : DB)
      (⟨⟨some 1, "Acme", none, none⟩, none, ⟨some 1, 1, "Dev", none, none, none, none, none⟩,
        ⟨none, 1, none, none, none, none⟩, some 1, .SAVED⟩ : ApplicationStatus)
      1 rfl).1 rfl

/-- `mergeSort` under a `decide`-lifted key comparison sorts by the key. -/
theorem mergeSort_key_sorted {α : Type} (f : α → Nat) (l : List α) :
    (l.mergeSort fun a b => decide (f a ≤ f b)).Pairwise (fun a b => f a ≤ f b) := by
  have htrans : ∀ a b c : α, (decide (f a ≤ f b)) = true → (decide (f b ≤ f c)) = true →
      (decide (f a ≤ f c)) = true := by
    intro a b c hab hbc
    simp at hab hbc ⊢
    omega
  have htotal : ∀ a b : α, ((decide (f a ≤ f b)) || (decide (f b ≤ f a))) = true := by
    intro a b
    simp [Nat.le_total]
  have h := @List.sorted_mergeSort α (fun a b => decide (f a ≤ f b)) htrans htotal l
  exact h.imp (fun hab => by simpa using hab)

/-- C9: every `ReadAllX` returns its entries ordered by identifier ascending
(for all five entity types), and an empty table yields an empty collection
rather than an error. -/
theorem read_all_sorted_by_identifier (db : DB) :
    List.Pairwise (fun x y : Company => ∃ a b : Nat,
      x.company_id = some a ∧ y.company_id = some b ∧ a ≤ b)
      (DataProvider.ReadAllCompanies db) ∧
    List.Pairwise (fun x y : Contact => ∃ a b : Nat,
      x.contact_id = some a ∧ y.contact_id = some b ∧ a ≤ b)
      (DataProvider.ReadAllContacts db) ∧
    List.Pairwise (fun x y : JobPosting => ∃ a b : Nat,
      x.job_id = some a ∧ y.job_id = some b ∧ a ≤ b)
      (DataProvider.ReadAllJobPostings db) ∧
    List.Pairwise (fun x y : Application => ∃ a b : Nat,
      x.application_id = some a ∧ y.application_id = some b ∧ a ≤ b)
      (DataProvider.ReadAllApplications db) ∧
    (∀ l : List ApplicationStatus, DataProvider.ReadAllApplicationStatuses db = .ok l →
      List.Pairwise (fun x y : ApplicationStatus => ∃ a b : Nat,
        x.status_id = some a ∧ y.status_id = some b ∧ a ≤ b) l) ∧
    (db.companies = [] → DataProvider.ReadAllCompanies db = []) ∧
    (db.contacts = [] → DataProvider.ReadAllContacts db = []) ∧
    (db.job_postings = [] → DataProvider.ReadAllJobPostings db = []) ∧
    (db.applications = [] → DataProvider.ReadAllApplications db = []) ∧
    (db.application_statuses = [] →
      DataProvider.ReadAllApplicationStatuses db = .ok []) := by
  refine ⟨?_, ?_, ?_, ?_, ?_, ?_, ?_, ?_, ?_, ?_⟩
  · unfold DataProvider.ReadAllCompanies
    rw [List.pairwise_map]
    exact (mergeSort_key_sorted (fun r : CompanyRow => r.company_id) db.companies).imp
      (fun h => ⟨_, _, rfl, rfl, h⟩)
  · unfold DataProvider.ReadAllContacts
    rw [List.pairwise_map]
    exact (mergeSort_key_sorted (fun r : ContactRow => r.contact_id) db.contacts).imp
      (fun h => ⟨_, _, rfl, rfl, h⟩)
  · unfold DataProvider.ReadAllJobPostings
    rw [List.pairwise_map]
    exact (mergeSort_key_sorted (fun r : JobPostingRow => r.job_id) db.job_postings).imp
      (fun h => ⟨_, _, rfl, rfl, h⟩)
  · unfold DataProvider.ReadAllApplications
    rw [List.pairwise_map]
    exact (mergeSort_key_sorted (fun r : ApplicationRow => r.application_id) db.applications).imp
      (fun h => ⟨_, _, rfl, rfl, h⟩)
  · intro l hl
    unfold DataProvider.ReadAllApplicationStatuses at hl
    have hf := mapM_except_ok_forall2 DataProvider._application_status_from_join_row _ l hl
    have hsorted := mergeSort_key_sorted (fun r : JoinRow => r.s_status_id) db.statusJoinRows
    refine forall2_pairwise_transfer ?_ hf hsorted
    intro r1 r2 s1 s2 hR1 hR2 hP
    have h1 := (from_join_row_fields r1 s1 hR1).1
    have h2 := (from_join_row_fields r2 s2 hR2).1
    exact ⟨r1.s_status_id, r2.s_status_id, h1, h2, hP⟩
  · intro h
    simp [DataProvider.ReadAllCompanies, h, List.mergeSort_nil]
  · intro h
    simp [DataProvider.ReadAllContacts, h, List.mergeSort_nil]
  · intro h
    simp [DataProvider.ReadAllJobPostings, h, List.mergeSort_nil]
  · intro h
    simp [DataProvider.ReadAllApplications, h, List.mergeSort_nil]
  · intro h
    simp [DataProvider.ReadAllApplicationStatuses, DB.statusJoinRows, h,
      List.mergeSort_nil, List.mapM_nil]
    rfl

/-- Witness for C9: a database with no rows at all reads back as empty
collections, not errors. -/
theorem read_all_sorted_by_identifier_witness :
    DataProvider.ReadAllCompanies (⟨[], [], [], [], [], 1, 1, 1, 1, 1⟩ : DB) = [] ∧
    DataProvider.ReadAllApplicationStatuses (⟨[], [], [], [], [], 1, 1, 1, 1, 1⟩ : DB) =
      .ok [] :=
  ⟨(read_all_sorted_by_identifier (⟨[], [], [], [], [], 1, 1, 1, 1, 1⟩ : DB)).2.2.2.2.2.1 rfl,
   (read_all_sorted_by_identifier
      (⟨[], [], [], [], [], 1, 1, 1, 1, 1⟩ : DB)).2.2.2.2.2.2.2.2.2 rfl⟩

end JobTracker
